import Mathlib

/-!
Verification of the Clockwork billing/restriction subsystem.

Shallow embedding of:
- migrations/001_billing_schema.sql (data model, `update_client_count` trigger)
- services/billingService.js (`BillingService`)
- middleware/billingRestrictions.js
- routes/billing.js
- services/scheduledTasks.js (`ScheduledTasksRunner`)

Database rows become Lean structures, tables become lists, SQL UPDATEs become
`List.map`, and time (`NOW()`) is passed explicitly.  External services
(Stripe, SMTP) are modelled as explicit inputs: fresh Stripe identifiers and
payment outcomes are parameters, and a sent email is recorded as an `Email`
value (emailService.js is not part of the analysed sources; the spec describes
it as a template-based email sender, so a send is recorded with its recipient
and template name).
-/

namespace Clockwork

/-- A row of `billing_tiers` (migrations/001_billing_schema.sql).
`client_limit = -1` means unlimited. -/
structure BillingTier where
  id : String
  name : String
  price : Int
  client_limit : Int
  is_active : Bool
deriving DecidableEq

/-- A row of `specialists` with the billing columns added by the migration. -/
structure Specialist where
  id : Nat
  email : String
  name : String
  billing_tier_id : Option String
  stripe_customer_id : Option String
  stripe_subscription_id : Option String
  subscription_status : String
  subscription_start_date : Option Int
  trial_ends_at : Option Int
  cancellation_date : Option Int
  cancellation_reason : Option String
  is_restricted : Bool
  restriction_reason : Option String
  restricted_at : Option Int
  client_count : Nat
deriving DecidableEq

/-- A row of `clients` with the soft-archive columns added by the migration. -/
structure Client where
  id : Nat
  specialist_id : Nat
  name : String
  email : String
  is_active : Bool
  is_archived : Bool
  archived_at : Option Int
  archived_reason : Option String
  last_activity : Option Int
  marked_for_cleanup : Bool
deriving DecidableEq

/-- A row of the append-only `billing_events` audit table. -/
structure BillingEvent where
  specialist_id : Option Nat
  event_type : String
  stripe_event_id : String
deriving DecidableEq

/-- A row of `invoices`. -/
structure Invoice where
  id : Nat
  specialist_id : Nat
  stripe_invoice_id : String
  status : String
  paid_date : Option Int
deriving DecidableEq

/-- The JSONB payload stored on a scheduled task (only the keys the
task handlers in scheduledTasks.js read). -/
structure TaskPayload where
  reason : Option String
  clientCount : Option Nat
  limit : Option Int
  invoice_id : Option String
deriving DecidableEq

/-- The result object a task handler returns (JSON.stringify-ed into the
`result` column on completion). -/
structure TaskResult where
  success : Bool
  message : String
deriving DecidableEq

/-- What gets recorded in the `result` column: the handler result on the
completed path, or the caught error message on the failed path. -/
inductive TaskOutcome where
  | res (r : TaskResult)
  | err (msg : String)
deriving DecidableEq

/-- A row of `scheduled_tasks`. -/
structure STask where
  id : Nat
  task_type : String
  specialist_id : Option Nat
  client_id : Option Nat
  execute_at : Int
  executed_at : Option Int
  status : String
  payload : Option TaskPayload
  result : Option TaskOutcome
deriving DecidableEq

/-- Modelled from the spec: emailService.js (the template-based notification
dispatcher) is not among the analysed sources, so a successful send is
recorded as the recipient address together with the template name passed to
`sendEmail`. -/
structure Email where
  toAddr : String
  template : String
deriving DecidableEq

/-- The persistent database state: one list per table of the billing schema. -/
structure DB where
  billing_tiers : List BillingTier
  specialists : List Specialist
  clients : List Client
  billing_events : List BillingEvent
  invoices : List Invoice
  scheduled_tasks : List STask
deriving DecidableEq

/-- Milliseconds per day; SQL intervals and JS date arithmetic use this unit. -/
def msPerDay : Int := 86400000

/-- `SELECT * FROM specialists WHERE id = $1` (first matching row). -/
def findSpecialist (db : DB) (sid : Nat) : Option Specialist :=
  db.specialists.find? (fun s => s.id == sid)

/-- `UPDATE specialists SET ... WHERE p` as a map over the table. -/
def updateSpecialistsWhere (db : DB) (p : Specialist → Bool)
    (f : Specialist → Specialist) : DB :=
  { db with specialists := db.specialists.map (fun s => if p s then f s else s) }

/-- `SELECT COUNT(*) FROM clients WHERE specialist_id = sid AND is_active = true`
over an explicit row list. -/
def countActive (cs : List Client) (sid : Nat) : Nat :=
  (cs.filter (fun c => c.specialist_id == sid && c.is_active)).length

/-- The live active-dependent count of an account. -/
def activeClientCount (db : DB) (sid : Nat) : Nat :=
  countActive db.clients sid

/-- Count of non-archived dependents of an account. -/
def countNonArchived (cs : List Client) (sid : Nat) : Nat :=
  (cs.filter (fun c => c.specialist_id == sid && !c.is_archived)).length

/-- `LEFT JOIN billing_tiers bt ON s.billing_tier_id = bt.id`: the joined tier
row, when the account has a tier id that resolves. -/
def lookupTier (db : DB) (tid : Option String) : Option BillingTier :=
  match tid with
  | none => none
  | some t => db.billing_tiers.find? (fun b => b.id == t)

/-- The `bt.client_limit` column produced by the left join (`none` when the
join produced no tier row, i.e. SQL NULL). -/
def tierLimit (db : DB) (s : Specialist) : Option Int :=
  (lookupTier db s.billing_tier_id).map (fun b => b.client_limit)

/-- JS `client_limit !== -1` (a NULL limit is not `-1`). -/
def jsNeNegOne : Option Int → Bool
  | none => true
  | some l => l != -1

/-- JS `client_count >= client_limit` (NULL coerces to 0 under `>=`). -/
def jsGeCount (count : Nat) (limit : Option Int) : Bool :=
  limit.getD 0 ≤ (count : Int)

/-- JS `active_clients > client_limit` (NULL coerces to 0 under `>`). -/
def jsGtCount (count : Nat) (limit : Option Int) : Bool :=
  limit.getD 0 < (count : Int)

/-- JS `client_count >= client_limit * 0.8`, read as the exact rational
comparison `5 * count >= 4 * limit` (a NULL limit multiplies to 0). -/
def jsGe80 (count : Nat) (limit : Option Int) : Bool :=
  4 * limit.getD 0 ≤ 5 * (count : Int)

/-- The static `BILLING_TIERS` configuration object of billingService.js. -/
structure TierCfg where
  id : String
  name : String
  price : Int
  clientLimit : Int
deriving DecidableEq

/-- Lookup in the `BILLING_TIERS` object (billingService.js lines 7-40). -/
def BILLING_TIERS : String → Option TierCfg
  | "starter" => some ⟨"starter", "Starter", 29, 10⟩
  | "professional" => some ⟨"professional", "Professional", 79, 50⟩
  | "scale" => some ⟨"scale", "Scale", 149, 150⟩
  | "enterprise" => some ⟨"enterprise", "Enterprise", 299, -1⟩
  | _ => none

/-- The object `checkClientLimits` resolves with. -/
structure LimitCheckResult where
  restricted : Bool
  reason : Option String
  clientCount : Nat
  limit : Option Int
deriving DecidableEq

/-- The email `notifyLimitReached` sends (template `limit-reached`). -/
def notifyLimitReachedEmail (s : Specialist) : Email :=
  ⟨s.email, "limit-reached"⟩

/-- The email `notifyApproachingLimit` sends (template `approaching-limit`). -/
def notifyApproachingLimitEmail (s : Specialist) : Email :=
  ⟨s.email, "approaching-limit"⟩

/-- `BillingService.checkClientLimits` (billingService.js lines 44-90):
fetch the account, its joined tier limit and live active-client count; when
the finite limit is reached, persist the restriction flag with reason
`client_limit_exceeded` and notify; when at 80% or more of a finite limit,
send an approaching-limit notification; otherwise report unrestricted.
A missing account row raises `Specialist not found`. -/
def svcCheckClientLimits (now : Int) (db : DB) (sid : Nat) :
    Except String (DB × List Email × LimitCheckResult) :=
  match findSpecialist db sid with
  | none => .error "Specialist not found"
  | some s =>
    let client_count := activeClientCount db sid
    let client_limit := tierLimit db s
    if jsNeNegOne client_limit && jsGeCount client_count client_limit then
      let db1 := updateSpecialistsWhere db (fun x => x.id == sid) (fun x =>
        { x with is_restricted := true,
                 restriction_reason := some "client_limit_exceeded",
                 restricted_at := some now })
      .ok (db1, [notifyLimitReachedEmail s],
        { restricted := true, reason := some "client_limit_exceeded",
          clientCount := client_count, limit := client_limit })
    else if jsNeNegOne client_limit && jsGe80 client_count client_limit then
      .ok (db, [notifyApproachingLimitEmail s],
        { restricted := false, reason := none,
          clientCount := client_count, limit := client_limit })
    else
      .ok (db, [],
        { restricted := false, reason := none,
          clientCount := client_count, limit := client_limit })

/-- `BillingService.clearRestrictions` (billingService.js lines 379-388). -/
def clearRestrictions (db : DB) (sid : Nat) : DB :=
  updateSpecialistsWhere db (fun x => x.id == sid) (fun x =>
    { x with is_restricted := false, restriction_reason := none,
             restricted_at := none })

/-- The Stripe-side inputs of `createSubscription`: the identifiers the
payment processor would mint and the status of the created subscription. -/
structure StripeEnv where
  newCustomerId : String
  newSubscriptionId : String
  newSubscriptionStatus : String
deriving DecidableEq

/-- The subscription object Stripe returns (the fields the service reads). -/
structure Subscription where
  id : String
  status : String
  trial_period_days : Int
deriving DecidableEq

/-- `BillingService.createSubscription` (billingService.js lines 93-174):
look up the account and the requested tier in `BILLING_TIERS`; create a Stripe
customer when the account has none and persist its id; create a subscription
with a 14-day trial; persist tier, subscription id, status and start date
while clearing the restriction; finally run `clearRestrictions`. -/
def createSubscription (env : StripeEnv) (now : Int) (db : DB) (sid : Nat)
    (tierId : String) : Except String (DB × Subscription × TierCfg) :=
  match findSpecialist db sid with
  | none => .error "Specialist not found"
  | some s =>
    match BILLING_TIERS tierId with
    | none => .error "Invalid tier"
    | some tier =>
      let customerId := s.stripe_customer_id.getD env.newCustomerId
      let db1 :=
        if s.stripe_customer_id.isNone then
          updateSpecialistsWhere db (fun x => x.id == sid)
            (fun x => { x with stripe_customer_id := some customerId })
        else db
      let subscription : Subscription :=
        { id := env.newSubscriptionId, status := env.newSubscriptionStatus,
          trial_period_days := 14 }
      let db2 := updateSpecialistsWhere db1 (fun x => x.id == sid) (fun x =>
        { x with billing_tier_id := some tierId,
                 stripe_subscription_id := some subscription.id,
                 subscription_status := subscription.status,
                 subscription_start_date := some now,
                 is_restricted := false,
                 restriction_reason := none })
      let db3 := clearRestrictions db2 sid
      .ok (db3, subscription, tier)

/-- The `event.data.object` of a Stripe webhook event (the fields the
handlers in billingRestrictions.js read). -/
structure StripeObject where
  id : String
  status : String
  metadata_specialistId : Option Nat
  metadata_tierId : Option String
  trial_end : Option Int
  customer : String
  paid_at : Option Int
deriving DecidableEq

/-- A verified Stripe webhook event. -/
structure StripeEvent where
  id : String
  type : String
  obj : StripeObject
deriving DecidableEq

/-- `handleSubscriptionCreated` (billingRestrictions.js lines 323-339). -/
def handleSubscriptionCreated (db : DB) (sub : StripeObject) :
    DB × List Email × Option String :=
  let db1 := updateSpecialistsWhere db
    (fun s => s.stripe_subscription_id == some sub.id)
    (fun s => { s with subscription_status := sub.status,
                       is_restricted := false,
                       restriction_reason := none,
                       trial_ends_at := sub.trial_end })
  let db2 :=
    match sub.metadata_specialistId with
    | some sid => clearRestrictions db1 sid
    | none => db1
  (db2, [], none)

/-- `handleSubscriptionUpdated` (billingRestrictions.js lines 341-356):
update tier and status, then re-run the capacity check.  A thrown
`Specialist not found` propagates (the `Option String` component). -/
def handleSubscriptionUpdated (now : Int) (db : DB) (sub : StripeObject) :
    DB × List Email × Option String :=
  let db1 := updateSpecialistsWhere db
    (fun s => s.stripe_subscription_id == some sub.id)
    (fun s => { s with billing_tier_id := sub.metadata_tierId,
                       subscription_status := sub.status })
  match sub.metadata_specialistId with
  | some sid =>
    match svcCheckClientLimits now db1 sid with
    | .ok (db2, emails, _) => (db2, emails, none)
    | .error e => (db1, [], some e)
  | none => (db1, [], some "Specialist not found")

/-- `handleSubscriptionDeleted` (billingRestrictions.js lines 358-374): mark
the matching account canceled and restricted with reason
`subscription_canceled`; no row of any table is deleted.  The subsequent
`billingService.sendRetentionEmail` call raises a TypeError because
`BillingService` defines no such method; the database update has already
been applied when it does. -/
def handleSubscriptionDeleted (now : Int) (db : DB) (sub : StripeObject) :
    DB × List Email × Option String :=
  let db1 := updateSpecialistsWhere db
    (fun s => s.stripe_subscription_id == some sub.id)
    (fun s => { s with subscription_status := "canceled",
                       is_restricted := true,
                       restriction_reason := some "subscription_canceled",
                       cancellation_date := some now })
  (db1, [], some "billingService.sendRetentionEmail is not a function")

/-- `handlePaymentSucceeded` (billingRestrictions.js lines 376-385). -/
def handlePaymentSucceeded (db : DB) (invoice : StripeObject) :
    DB × List Email × Option String :=
  ({ db with invoices := db.invoices.map (fun i =>
      if i.stripe_invoice_id == invoice.id then
        { i with status := "paid", paid_date := invoice.paid_at }
      else i) }, [], none)

/-- `handlePaymentFailed` (billingRestrictions.js lines 387-402): restrict
the matching account with reason `payment_failed`; the subsequent
`billingService.sendPaymentFailedEmail` call raises a TypeError because
`BillingService` defines no such method. -/
def handlePaymentFailed (now : Int) (db : DB) (invoice : StripeObject) :
    DB × List Email × Option String :=
  let db1 := updateSpecialistsWhere db
    (fun s => s.stripe_customer_id == some invoice.customer)
    (fun s => { s with is_restricted := true,
                       restriction_reason := some "payment_failed",
                       restricted_at := some now })
  (db1, [], some "billingService.sendPaymentFailedEmail is not a function")

/-- The HTTP response of the webhook endpoint (status code only). -/
structure WebhookResponse where
  status : Nat
deriving DecidableEq

/-- `handleStripeWebhook` (billingRestrictions.js lines 272-320):
`stripe.webhooks.constructEvent` is modelled as the verification function
`verify`, which yields the parsed event exactly when the signature matches
the shared secret.  On failure respond 400 before touching any state; on
success append the event to the `billing_events` audit table and dispatch on
the event type (a handler error surfaces as status 500). -/
def handleStripeWebhook
    (verify : String → String → String → Option StripeEvent)
    (secret : String) (now : Int) (db : DB) (rawBody sig : String) :
    DB × List Email × WebhookResponse :=
  match verify rawBody sig secret with
  | none => (db, [], ⟨400⟩)
  | some event =>
    let db1 := { db with billing_events := db.billing_events ++
      [⟨event.obj.metadata_specialistId, event.type, event.id⟩] }
    let step : DB × List Email × Option String :=
      match event.type with
      | "customer.subscription.created" => handleSubscriptionCreated db1 event.obj
      | "customer.subscription.updated" => handleSubscriptionUpdated now db1 event.obj
      | "customer.subscription.deleted" => handleSubscriptionDeleted now db1 event.obj
      | "invoice.payment_succeeded" => handlePaymentSucceeded db1 event.obj
      | "invoice.payment_failed" => handlePaymentFailed now db1 event.obj
      | _ => (db1, [], none)
    match step with
    | (db2, emails, none) => (db2, emails, ⟨200⟩)
    | (db2, emails, some _) => (db2, emails, ⟨500⟩)

/-- SQL `ASC NULLS FIRST` comparison on nullable timestamps. -/
def optLe : Option Int → Option Int → Bool
  | none, _ => true
  | some _, none => false
  | some x, some y => x ≤ y

/-- `ORDER BY last_activity ASC NULLS FIRST` as a total boolean order on
clients (NULL sorts before every timestamp). -/
def activityLe (a b : Client) : Bool :=
  optLe a.last_activity b.last_activity

/-- The candidate filter of `smartArchiveClients`: active clients of the
account whose `last_activity` is NULL or older than 90 days. -/
def eligibleForArchive (now : Int) (db : DB) (sid : Nat) : List Client :=
  db.clients.filter (fun c =>
    c.specialist_id == sid && c.is_active &&
    (match c.last_activity with
     | none => true
     | some t => t < now - 90 * msPerDay))

/-- The next id the `scheduled_tasks` SERIAL column would assign. -/
def nextTaskId (db : DB) : Nat :=
  (db.scheduled_tasks.map (fun t => t.id)).foldr max 0 + 1

/-- The `archive_client` task row `smartArchiveClients` inserts: due seven
days from now, payload reason `auto_archived_billing_limit`. -/
def mkArchiveTask (tid : Nat) (now : Int) (sid : Nat) (c : Client) : STask :=
  { id := tid, task_type := "archive_client", specialist_id := some sid,
    client_id := some c.id, execute_at := now + 7 * msPerDay,
    executed_at := none, status := "pending",
    payload := some { reason := some "auto_archived_billing_limit",
                      clientCount := none, limit := none, invoice_id := none },
    result := none }

/-- The email `notifyPendingArchive` sends (template `pending-archive`). -/
def notifyPendingArchiveEmail (s : Specialist) : Email :=
  ⟨s.email, "pending-archive"⟩

/-- `BillingService.smartArchiveClients` (billingService.js lines 273-318):
for a restricted account over a finite limit, select the least-recently
active clients among those inactive for 90+ days (NULLs first), at most the
overage amount; when any candidate exists, notify the account holder and
insert an `archive_client` task due seven days later for each candidate.
Clients are not archived now. -/
def smartArchiveClients (now : Int) (db : DB) (sid : Nat) : DB × List Email :=
  match db.specialists.find? (fun s => s.id == sid && s.is_restricted) with
  | none => (db, [])
  | some s =>
    let client_limit := tierLimit db s
    let active_clients := activeClientCount db sid
    if jsNeNegOne client_limit && jsGtCount active_clients client_limit then
      let overage := ((active_clients : Int) - client_limit.getD 0).toNat
      let candidates :=
        ((eligibleForArchive now db sid).mergeSort activityLe).take overage
      if candidates.isEmpty then (db, [])
      else
        let newTasks := candidates.enum.map
          (fun ic => mkArchiveTask (nextTaskId db + ic.1) now sid ic.2)
        ({ db with scheduled_tasks := db.scheduled_tasks ++ newTasks },
         [notifyPendingArchiveEmail s])
    else (db, [])

/-- The `update_client_count` trigger recompute (001_billing_schema.sql lines
138-157): store the live active count of the given account. -/
def recomputeClientCount (db : DB) (sid : Nat) : DB :=
  updateSpecialistsWhere db (fun s => s.id == sid)
    (fun s => { s with client_count := countActive db.clients sid })

/-- `INSERT INTO clients` followed by the AFTER INSERT trigger, which always
recomputes the owning account's count. -/
def insertClient (db : DB) (c : Client) : DB :=
  recomputeClientCount { db with clients := db.clients ++ [c] } c.specialist_id

/-- The field assignment of the archive UPDATE statements (scheduledTasks.js
lines 135-144 and routes/billing.js lines 249-258). -/
def archiveClientUpdate (now : Int) (reason : String) (c : Client) : Client :=
  { c with is_active := false, is_archived := true,
           archived_at := some now, archived_reason := some reason }

/-- The archive UPDATE of `ScheduledTasksRunner.archiveClient`
(`WHERE id = $2 AND specialist_id = $3 RETURNING id, name`), followed by the
`update_client_count` trigger, which recomputes only when a row's
`is_active` actually changed.  Returns the new state and the RETURNING rows. -/
def svcArchiveClientRows (now : Int) (db : DB) (cid sid : Nat)
    (reason : String) : DB × List Client :=
  let hit := fun c : Client => c.id == cid && c.specialist_id == sid
  let affected := db.clients.filter hit
  let mapped := db.clients.map
    (fun c => if hit c then archiveClientUpdate now reason c else c)
  let db1 := { db with clients := mapped }
  let db2 :=
    if affected.any (fun c => c.is_active) then recomputeClientCount db1 sid
    else db1
  (db2, affected.map (archiveClientUpdate now reason))

/-- An archive UPDATE over a list of client ids
(`WHERE id = ANY($2) AND specialist_id = $3`, routes/billing.js lines
249-258) with the `update_client_count` trigger. -/
def archiveClientsByIds (now : Int) (db : DB) (sid : Nat)
    (clientIds : List Nat) (reason : String) : DB × List Client :=
  let hit := fun c : Client => clientIds.contains c.id && c.specialist_id == sid
  let affected := db.clients.filter hit
  let mapped := db.clients.map
    (fun c => if hit c then archiveClientUpdate now reason c else c)
  let db1 := { db with clients := mapped }
  let db2 :=
    if affected.any (fun c => c.is_active) then recomputeClientCount db1 sid
    else db1
  (db2, affected.map (archiveClientUpdate now reason))

/-- An HTTP request as the billing middleware sees it: method, path and the
authenticated account id attached by the auth middleware. -/
structure HttpReq where
  method : String
  path : String
  userId : Nat
deriving DecidableEq

/-- An error response body: status, error string, and the `upgrade_url`
field when present. -/
structure ErrResp where
  status : Nat
  error : String
  upgrade_url : Option String
deriving DecidableEq

/-- Outcome of a middleware chain: the request reached the route handler, or
a middleware sent an error response. -/
inductive PipeResult where
  | allowed
  | rejected (r : ErrResp)
deriving DecidableEq

/-- JS `String.prototype.includes`. -/
def jsIncludes (s sub : String) : Bool :=
  (s.splitOn sub).length != 1

/-- The regex `^\/api\/clients\/\d+\/activate$` of the restricted-endpoint
table. -/
def pathIsActivateClient (p : String) : Bool :=
  match p.splitOn "/" with
  | ["", "api", "clients", n, "activate"] =>
    !n.isEmpty && n.toList.all Char.isDigit
  | _ => false

/-- The restricted-endpoint table of `enforceRestrictions`
(billingRestrictions.js lines 158-172). -/
def matchesRestrictedEndpoint (method p : String) : Bool :=
  (method == "POST" && p == "/api/clients") ||
  (method == "PUT" && pathIsActivateClient p) ||
  (method == "POST" && p == "/api/clients/import") ||
  (method == "POST" && p == "/api/clients/bulk")

/-- The `checkClientLimits` middleware (billingRestrictions.js lines
208-233): on a create or reactivate request, run the service-level limit
check; a restricted result is rejected 403 with `upgrade_url`. -/
def mwCheckClientLimits (now : Int) (db : DB) (req : HttpReq) :
    DB × List Email × Option ErrResp :=
  if req.method == "POST" ||
     (req.method == "PUT" && jsIncludes req.path "activate") then
    match svcCheckClientLimits now db req.userId with
    | .error _ => (db, [], some ⟨500, "Internal server error", none⟩)
    | .ok (db1, emails, r) =>
      if r.restricted then
        (db1, emails, some ⟨403, "Client limit exceeded", some "/billing/upgrade"⟩)
      else (db1, emails, none)
  else (db, [], none)

/-- The `enforceRestrictions` middleware (billingRestrictions.js lines
123-205): a missing account is 404; an unrestricted account passes; a
restricted account is rejected 403 with `upgrade_url` exactly on the
configured restricted endpoints.  No state is written. -/
def enforceRestrictions (db : DB) (req : HttpReq) : Option ErrResp :=
  match findSpecialist db req.userId with
  | none => some ⟨404, "Specialist not found", none⟩
  | some s =>
    if !s.is_restricted then none
    else if matchesRestrictedEndpoint req.method req.path then
      some ⟨403, "Account restricted", some "/billing/upgrade"⟩
    else none

/-- Modelled from the spec: routes/clients.js is not among the analysed
sources.  Creating a dependent inserts a client row owned by the caller,
relying on the migration column defaults (`is_active true`,
`is_archived false`); the AFTER INSERT trigger then recomputes the count. -/
def createClientHandler (db : DB) (sid : Nat) (c : Client) : DB :=
  insertClient db { c with specialist_id := sid, is_active := true,
                           is_archived := false, archived_at := none,
                           archived_reason := none }

/-- The middleware chain of `POST /api/clients` (server.js line 267:
`checkClientLimits, enforceRestrictions, clientRoutes`). -/
def postClientsPipeline (now : Int) (db : DB) (sid : Nat) (newClient : Client) :
    DB × List Email × PipeResult :=
  let req : HttpReq := { method := "POST", path := "/api/clients", userId := sid }
  match mwCheckClientLimits now db req with
  | (db1, emails, some r) => (db1, emails, .rejected r)
  | (db1, emails, none) =>
    match enforceRestrictions db1 req with
    | some r => (db1, emails, .rejected r)
    | none => (createClientHandler db1 sid newClient, emails, .allowed)

/-- `POST /api/billing/archive-clients` (routes/billing.js lines 239-272):
`enforceRestrictions`, then the archive UPDATE with trigger, then a
service-level limit recheck. -/
def postArchiveClientsRoute (now : Int) (db : DB) (sid : Nat)
    (clientIds : List Nat) (reason : String) : DB × List Email × PipeResult :=
  let req : HttpReq :=
    { method := "POST", path := "/api/billing/archive-clients", userId := sid }
  match enforceRestrictions db req with
  | some r => (db, [], .rejected r)
  | none =>
    let (db2, _) := archiveClientsByIds now db sid clientIds reason
    match svcCheckClientLimits now db2 sid with
    | .error _ => (db2, [], .rejected ⟨500, "Failed to archive clients", none⟩)
    | .ok (db3, emails, _) => (db3, emails, .allowed)

/-- A dependent state change: creation, archive, or reactivation.
Reactivation is modelled from the spec (the reactivate route is not among
the analysed sources): soft archiving is reversible, so reactivation sets
`is_active` back to true and `is_archived` back to false on one client. -/
inductive ClientOp where
  | create (c : Client)
  | archive (cid sid : Nat) (now : Int) (reason : String)
  | reactivate (cid sid : Nat)
deriving DecidableEq

/-- Reactivation UPDATE of one client row with the `update_client_count`
trigger (recompute fires only when `is_active` changed). -/
def reactivateClientRow (db : DB) (cid sid : Nat) : DB :=
  let hit := fun c : Client => c.id == cid && c.specialist_id == sid
  let affected := db.clients.filter hit
  let mapped := db.clients.map
    (fun c => if hit c then { c with is_active := true, is_archived := false }
              else c)
  let db1 := { db with clients := mapped }
  if affected.any (fun c => !c.is_active) then recomputeClientCount db1 sid
  else db1

/-- Apply a dependent state change, including its trigger. -/
def applyClientOp (db : DB) : ClientOp → DB
  | .create c =>
    insertClient db { c with is_active := true, is_archived := false }
  | .archive cid sid now reason => (svcArchiveClientRows now db cid sid reason).1
  | .reactivate cid sid => reactivateClientRow db cid sid

/-- The stored `client_count` of every account equals its live active count. -/
def countInvariant (db : DB) : Prop :=
  ∀ s ∈ db.specialists, s.client_count = countActive db.clients s.id

/-- Every client row is active exactly when it is not archived. -/
def activeArchiveCoupled (db : DB) : Prop :=
  ∀ c ∈ db.clients, c.is_active = !c.is_archived

/-- The external inputs of the sweep actions: the outcome of a Stripe
invoice-pay call, keyed by invoice id. -/
structure TaskEnv where
  payInvoice : String → Except String String

/-- `ScheduledTasksRunner.archiveClient` (scheduledTasks.js lines 130-160):
archive the task's client, then recheck limits (whose `Specialist not found`
throw would propagate to the caller). -/
def taskArchiveClient (now : Int) (db : DB) (task : STask) :
    DB × List Email × Except String TaskResult :=
  match task.client_id, task.specialist_id with
  | some cid, some sid =>
    let reason := (task.payload.bind (fun p => p.reason)).getD
      "auto_archived_billing_limit"
    let (db2, rows) := svcArchiveClientRows now db cid sid reason
    match rows.head? with
    | some r =>
      match svcCheckClientLimits now db2 sid with
      | .error e => (db2, [], .error e)
      | .ok (db3, emails, _) =>
        (db3, emails, .ok ⟨true, "Archived client: " ++ r.name⟩)
    | none => (db2, [], .ok ⟨false, "Client not found or already archived"⟩)
  | _, _ => (db, [], .ok ⟨false, "Client not found or already archived"⟩)

/-- `ScheduledTasksRunner.sendLimitWarning` (scheduledTasks.js lines
162-181): reading `task.payload.clientCount` on a NULL payload throws. -/
def taskSendLimitWarning (db : DB) (task : STask) :
    DB × List Email × Except String TaskResult :=
  match task.specialist_id.bind (findSpecialist db) with
  | some s =>
    match task.payload with
    | none => (db, [], .error "Cannot read properties of null")
    | some _ =>
      (db, [notifyApproachingLimitEmail s], .ok ⟨true, "Warning email sent"⟩)
  | none => (db, [], .ok ⟨false, "Specialist not found"⟩)

/-- `ScheduledTasksRunner.retryPayment` (scheduledTasks.js lines 183-213):
its internal try/catch converts every thrown error into a failure result,
so this action never propagates an exception. -/
def taskRetryPayment (env : TaskEnv) (db : DB) (task : STask) :
    DB × List Email × Except String TaskResult :=
  match task.specialist_id.bind (findSpecialist db) with
  | some s =>
    match s.stripe_subscription_id with
    | some _ =>
      match task.payload with
      | none =>
        (db, [], .ok ⟨false, "Payment retry failed: payload missing"⟩)
      | some p =>
        match env.payInvoice (p.invoice_id.getD "") with
        | .ok _ => (db, [], .ok ⟨true, "Payment retry successful"⟩)
        | .error e => (db, [], .ok ⟨false, "Payment retry failed: " ++ e⟩)
    | none => (db, [], .ok ⟨false, "No subscription found"⟩)
  | none => (db, [], .ok ⟨false, "No subscription found"⟩)

/-- The task-type dispatch of `ScheduledTasksRunner.executeTask`
(scheduledTasks.js lines 85-107).  The `downgrade_plan` and
`cancel_subscription` cases call methods the class does not define, so they
throw TypeErrors; an unknown type keeps the initial result object. -/
def runAction (env : TaskEnv) (now : Int) (db : DB) (task : STask) :
    DB × List Email × Except String TaskResult :=
  match task.task_type with
  | "archive_client" => taskArchiveClient now db task
  | "send_limit_warning" => taskSendLimitWarning db task
  | "retry_payment" => taskRetryPayment env db task
  | "downgrade_plan" => (db, [], .error "this.downgradePlan is not a function")
  | "cancel_subscription" =>
    (db, [], .error "this.cancelSubscription is not a function")
  | _ => (db, [], .ok ⟨false, "Unknown task type"⟩)

/-- `UPDATE scheduled_tasks SET status = processing WHERE id = $2`. -/
def setTaskProcessing (db : DB) (tid : Nat) : DB :=
  { db with scheduled_tasks := db.scheduled_tasks.map (fun t =>
      if t.id == tid then { t with status := "processing" } else t) }

/-- `UPDATE scheduled_tasks SET status, executed_at, result WHERE id`. -/
def setTaskDone (db : DB) (tid : Nat) (now : Int) (st : String)
    (out : TaskOutcome) : DB :=
  { db with scheduled_tasks := db.scheduled_tasks.map (fun t =>
      if t.id == tid then
        { t with status := st, executed_at := some now, result := some out }
      else t) }

/-- `ScheduledTasksRunner.executeTask` (scheduledTasks.js lines 75-128):
mark the task processing, run its action, then record completed with the
result, or failed with the caught error message. -/
def executeTask (env : TaskEnv) (now : Int) (db : DB) (task : STask) :
    DB × List Email :=
  let db1 := setTaskProcessing db task.id
  match runAction env now db1 task with
  | (db2, emails, .ok r) =>
    (setTaskDone db2 task.id now "completed" (.res r), emails)
  | (db2, emails, .error m) =>
    (setTaskDone db2 task.id now "failed" (.err m), emails)

/-- The batch one sweep tick polls: pending tasks due now, ordered by
`execute_at`, at most 10 (scheduledTasks.js lines 59-65). -/
def dueTasks (now : Int) (db : DB) : List STask :=
  ((db.scheduled_tasks.filter
      (fun t => t.status == "pending" && t.execute_at ≤ now)).mergeSort
    (fun a b => a.execute_at ≤ b.execute_at)).take 10

/-- `ScheduledTasksRunner.runPendingTasks` (scheduledTasks.js lines 56-73):
execute every polled task in order; `executeTask` never throws, so one
failing task cannot abort the rest of the batch. -/
def runPendingTasks (env : TaskEnv) (now : Int) (db : DB) : DB × List Email :=
  (dueTasks now db).foldl
    (fun acc task =>
      let r := executeTask env now acc.1 task
      (r.1, acc.2 ++ r.2))
    (db, [])

/-- Convenience builder for a concrete specialist row. -/
def mkSpec (sid : Nat) (tier : Option String) (restricted : Bool)
    (ccount : Nat) : Specialist :=
  { id := sid, email := "owner@x.com", name := "Owner",
    billing_tier_id := tier, stripe_customer_id := none,
    stripe_subscription_id := none, subscription_status := "active",
    subscription_start_date := none, trial_ends_at := none,
    cancellation_date := none, cancellation_reason := none,
    is_restricted := restricted, restriction_reason := none,
    restricted_at := none, client_count := ccount }

/-- Convenience builder for a concrete client row. -/
def mkClient (cid sid : Nat) (act : Bool) (last : Option Int) : Client :=
  { id := cid, specialist_id := sid, name := "C", email := "c@x.com",
    is_active := act, is_archived := !act, archived_at := none,
    archived_reason := none, last_activity := last,
    marked_for_cleanup := false }

/-- Concrete state for C1: account 1 on a tier with limit 2, holding two
active dependents. -/
def dbC1 : DB :=
  { billing_tiers := [⟨"basic", "Basic", 29, 2, true⟩],
    specialists := [mkSpec 1 (some "basic") false 2],
    clients := [mkClient 1 1 true none, mkClient 2 1 true none],
    billing_events := [], invoices := [], scheduled_tasks := [] }

/-- Concrete state for C10: account 9 on the enterprise tier (limit -1)
with three active dependents. -/
def dbC10 : DB :=
  { billing_tiers := [⟨"enterprise", "Enterprise", 299, -1, true⟩],
    specialists := [mkSpec 9 (some "enterprise") false 3],
    clients := [mkClient 1 9 true none, mkClient 2 9 true none,
                mkClient 3 9 true none],
    billing_events := [], invoices := [], scheduled_tasks := [] }

theorem find?_map_pred {α : Type _} (l : List α) (g : α → α) (p : α → Bool)
    (h : ∀ a, p (g a) = p a) :
    (l.map g).find? p = (l.find? p).map g := by
  induction l with
  | nil => rfl
  | cons a t ih =>
    simp only [List.map_cons, List.find?]
    rw [h a]
    cases hp : p a
    · simpa using ih
    · simp

theorem findSpecialist_update (db : DB) (q : Specialist → Bool)
    (f : Specialist → Specialist) (hf : ∀ x, (f x).id = x.id) (sid : Nat) :
    findSpecialist (updateSpecialistsWhere db q f) sid =
      (findSpecialist db sid).map (fun x => if q x then f x else x) := by
  unfold findSpecialist updateSpecialistsWhere
  exact find?_map_pred _ _ _ (fun a => by by_cases hq : q a <;> simp [hq, hf])

theorem findSpecialist_id {db : DB} {sid : Nat} {s : Specialist}
    (hs : findSpecialist db sid = some s) : s.id = sid := by
  have := List.find?_some hs
  simpa using this

/-- Claim C1 as written fails on the code: when a finite limit is reached,
`checkClientLimits` restricts the account, but the persisted and returned
restriction reason is the literal `client_limit_exceeded`, not
`capacity_exceeded`.  Concrete account 1 (tier limit 2, two active
dependents) exhibits it. -/
theorem C1_reason_literal_counterexample :
    ((svcCheckClientLimits 0 dbC1 1).toOption.map
        (fun x => x.2.2.restricted) = some true) ∧
    ((svcCheckClientLimits 0 dbC1 1).toOption.map
        (fun x => x.2.2.reason) = some (some "client_limit_exceeded")) ∧
    ((svcCheckClientLimits 0 dbC1 1).toOption.map
        (fun x => x.2.2.reason) ≠ some (some "capacity_exceeded")) := by
  decide

/-- Claim C1 (amended): for every account with a finite tier limit whose
active-dependent count is at or over that limit, `checkClientLimits`
persists the restriction flag with reason `client_limit_exceeded` (not the
spec's `capacity_exceeded`), sends the limit-reached notification, and
returns a restricted result carrying the current count and limit. -/
theorem C1_finite_limit_reached_restricts (now : Int) (db : DB) (sid : Nat)
    (s : Specialist) (l : Int)
    (hs : findSpecialist db sid = some s)
    (hl : tierLimit db s = some l)
    (hfin : l ≠ -1)
    (hover : l ≤ (activeClientCount db sid : Int)) :
    ∃ db1, svcCheckClientLimits now db sid =
        .ok (db1, [notifyLimitReachedEmail s],
          { restricted := true, reason := some "client_limit_exceeded",
            clientCount := activeClientCount db sid, limit := some l }) ∧
      findSpecialist db1 sid = some
        { s with is_restricted := true,
                 restriction_reason := some "client_limit_exceeded",
                 restricted_at := some now } := by
  have hid : s.id = sid := findSpecialist_id hs
  have hcond : (jsNeNegOne (some l) &&
      jsGeCount (activeClientCount db sid) (some l)) = true := by
    simp [jsNeNegOne, jsGeCount, hover, hfin]
  refine ⟨updateSpecialistsWhere db (fun x => x.id == sid) (fun x =>
    { x with is_restricted := true,
             restriction_reason := some "client_limit_exceeded",
             restricted_at := some now }), ?_, ?_⟩
  · unfold svcCheckClientLimits
    rw [hs]
    simp only [hl, hcond, if_true]
  · rw [findSpecialist_update db (fun x => x.id == sid) (fun x =>
      { x with is_restricted := true,
               restriction_reason := some "client_limit_exceeded",
               restricted_at := some now }) (fun x => rfl) sid, hs]
    simp [hid]

/-- The specialist row of `dbC1`. -/
def specC1 : Specialist := mkSpec 1 (some "basic") false 2

/-- Witness for C1 at the concrete state `dbC1`. -/
theorem C1_finite_limit_reached_restricts_witness :
    ∃ db1, svcCheckClientLimits 7 dbC1 1 =
        .ok (db1, [notifyLimitReachedEmail specC1],
          { restricted := true, reason := some "client_limit_exceeded",
            clientCount := activeClientCount dbC1 1, limit := some 2 }) ∧
      findSpecialist db1 1 = some
        { specC1 with is_restricted := true,
                      restriction_reason := some "client_limit_exceeded",
                      restricted_at := some 7 } :=
  C1_finite_limit_reached_restricts 7 dbC1 1 specC1 2
    (by decide) (by decide) (by decide) (by decide)

/-- Claim C10: on the unlimited tier (`client_limit = -1`),
`checkClientLimits` changes no state, sends no limit-reached or
approaching-limit notification, and returns a non-restricted result, no
matter how large the active count is. -/
theorem C10_unlimited_never_restricts (now : Int) (db : DB) (sid : Nat)
    (s : Specialist)
    (hs : findSpecialist db sid = some s)
    (hl : tierLimit db s = some (-1)) :
    svcCheckClientLimits now db sid =
      .ok (db, [], { restricted := false, reason := none,
                     clientCount := activeClientCount db sid,
                     limit := some (-1) }) := by
  unfold svcCheckClientLimits
  rw [hs]
  simp only [hl]
  simp [jsNeNegOne]

/-- Witness for C10: an enterprise-tier account with three active
dependents (which exceeds no finite threshold check because the guard
short-circuits on `-1`). -/
theorem C10_unlimited_never_restricts_witness :
    svcCheckClientLimits 0 dbC10 9 =
      .ok (dbC10, [], { restricted := false, reason := none,
                        clientCount := activeClientCount dbC10 9,
                        limit := some (-1) }) :=
  C10_unlimited_never_restricts 0 dbC10 9 (mkSpec 9 (some "enterprise") false 3)
    (by decide) (by decide)

/-- An empty database state. -/
def dbEmpty : DB :=
  { billing_tiers := [], specialists := [], clients := [],
    billing_events := [], invoices := [], scheduled_tasks := [] }

/-- Claim C4: a webhook request whose signature does not verify against the
shared secret is answered 400 and changes nothing: the returned state is the
input state (so no audit row, no account, invoice or restriction change) and
no email is sent. -/
theorem C4_webhook_bad_signature_no_state_change
    (verify : String → String → String → Option StripeEvent)
    (secret : String) (now : Int) (db : DB) (rawBody sig : String)
    (h : verify rawBody sig secret = none) :
    handleStripeWebhook verify secret now db rawBody sig = (db, [], ⟨400⟩) := by
  unfold handleStripeWebhook
  rw [h]

/-- Witness for C4: a verifier rejecting everything, on the concrete state
`dbC1`. -/
theorem C4_webhook_bad_signature_no_state_change_witness :
    handleStripeWebhook (fun _ _ _ => none) "whsec" 0 dbC1 "body" "sig" =
      (dbC1, [], ⟨400⟩) :=
  C4_webhook_bad_signature_no_state_change (fun _ _ _ => none) "whsec" 0 dbC1
    "body" "sig" rfl

/-- Claim C5: the subscription-deleted handler restricts the matching
account with reason `subscription_canceled` and status `canceled`, deletes
no specialist row and no client row, and the account's dependent rows are
exactly what they were before (so they stay queryable). -/
theorem C5_subscription_deleted_preserves_data (now : Int) (db : DB)
    (sub : StripeObject) (s : Specialist)
    (hs : s ∈ db.specialists)
    (hmatch : s.stripe_subscription_id = some sub.id) :
    (handleSubscriptionDeleted now db sub).1.clients = db.clients ∧
    (handleSubscriptionDeleted now db sub).1.specialists.length =
      db.specialists.length ∧
    { s with subscription_status := "canceled", is_restricted := true,
             restriction_reason := some "subscription_canceled",
             cancellation_date := some now }
      ∈ (handleSubscriptionDeleted now db sub).1.specialists ∧
    (handleSubscriptionDeleted now db sub).1.clients.filter
        (fun c => c.specialist_id == s.id) =
      db.clients.filter (fun c => c.specialist_id == s.id) := by
  refine ⟨rfl, by simp [handleSubscriptionDeleted, updateSpecialistsWhere], ?_, rfl⟩
  have hcond : (s.stripe_subscription_id == some sub.id) = true := by
    simp [hmatch]
  show _ ∈ List.map _ db.specialists
  refine List.mem_map.mpr ⟨s, hs, ?_⟩
  simp [hcond]

/-- The specialist row of `dbC5` (holds subscription `sub_1`). -/
def specC5 : Specialist :=
  { mkSpec 3 none false 1 with stripe_subscription_id := some "sub_1" }

/-- Concrete state for C5. -/
def dbC5 : DB :=
  { billing_tiers := [], specialists := [specC5],
    clients := [mkClient 1 3 true none],
    billing_events := [], invoices := [], scheduled_tasks := [] }

/-- The subscription-deleted event object for `dbC5`. -/
def subC5 : StripeObject :=
  { id := "sub_1", status := "canceled", metadata_specialistId := some 3,
    metadata_tierId := none, trial_end := none, customer := "cus_1",
    paid_at := none }

/-- Witness for C5 at the concrete state `dbC5`. -/
theorem C5_subscription_deleted_preserves_data_witness :
    (handleSubscriptionDeleted 5 dbC5 subC5).1.clients = dbC5.clients ∧
    (handleSubscriptionDeleted 5 dbC5 subC5).1.specialists.length =
      dbC5.specialists.length ∧
    { specC5 with subscription_status := "canceled", is_restricted := true,
                  restriction_reason := some "subscription_canceled",
                  cancellation_date := some 5 }
      ∈ (handleSubscriptionDeleted 5 dbC5 subC5).1.specialists ∧
    (handleSubscriptionDeleted 5 dbC5 subC5).1.clients.filter
        (fun c => c.specialist_id == specC5.id) =
      dbC5.clients.filter (fun c => c.specialist_id == specC5.id) :=
  C5_subscription_deleted_preserves_data 5 dbC5 subC5 specC5
    (by decide) (by decide)

/-- Claim C9: on an existing account and a valid tier, `createSubscription`
succeeds with a subscription carrying the fixed 14-day trial window, and the
account row afterwards carries a processor customer id (the fresh one when
none existed, the stored one otherwise), the new subscription id and status
and tier, with the restriction cleared; no specialist row is added or
removed and the clients table is untouched. -/
theorem C9_createSubscription_success (env : StripeEnv) (now : Int) (db : DB)
    (sid : Nat) (tierId : String) (s : Specialist) (tier : TierCfg)
    (hs : findSpecialist db sid = some s)
    (ht : BILLING_TIERS tierId = some tier) :
    ∃ db3, createSubscription env now db sid tierId =
        .ok (db3, { id := env.newSubscriptionId,
                    status := env.newSubscriptionStatus,
                    trial_period_days := 14 }, tier) ∧
      { s with stripe_customer_id :=
                 some (s.stripe_customer_id.getD env.newCustomerId),
               billing_tier_id := some tierId,
               stripe_subscription_id := some env.newSubscriptionId,
               subscription_status := env.newSubscriptionStatus,
               subscription_start_date := some now,
               is_restricted := false,
               restriction_reason := none,
               restricted_at := none } ∈ db3.specialists ∧
      db3.specialists.length = db.specialists.length ∧
      db3.clients = db.clients := by
  have hid : s.id = sid := findSpecialist_id hs
  have hmem : s ∈ db.specialists := List.mem_of_find?_eq_some hs
  unfold createSubscription
  rw [hs, ht]
  refine ⟨_, rfl, ?_, ?_, ?_⟩
  · cases hc : s.stripe_customer_id with
    | none =>
      simp only [hc, Option.isNone_none, if_true, Option.getD_none]
      unfold clearRestrictions updateSpecialistsWhere
      refine List.mem_map.mpr ⟨_, List.mem_map.mpr
        ⟨_, List.mem_map.mpr ⟨s, hmem, rfl⟩, rfl⟩, ?_⟩
      simp [hid]
    | some c =>
      simp only [hc, Option.isNone_some, if_false, Option.getD_some]
      unfold clearRestrictions updateSpecialistsWhere
      refine List.mem_map.mpr ⟨_, List.mem_map.mpr ⟨s, hmem, rfl⟩, ?_⟩
      simp [hid, hc]
  · cases hc : s.stripe_customer_id <;>
      simp [hc, clearRestrictions, updateSpecialistsWhere]
  · cases hc : s.stripe_customer_id <;>
      simp [hc, clearRestrictions, updateSpecialistsWhere]

/-- Witness for C9: account 1 of `dbC1` (no stored Stripe customer)
subscribing to the professional tier. -/
theorem C9_createSubscription_success_witness :
    ∃ db3, createSubscription ⟨"cus_9", "sub_9", "trialing"⟩ 11 dbC1 1
        "professional" =
        .ok (db3, { id := "sub_9", status := "trialing",
                    trial_period_days := 14 },
             ⟨"professional", "Professional", 79, 50⟩) ∧
      { specC1 with stripe_customer_id :=
                      some (specC1.stripe_customer_id.getD "cus_9"),
                    billing_tier_id := some "professional",
                    stripe_subscription_id := some "sub_9",
                    subscription_status := "trialing",
                    subscription_start_date := some 11,
                    is_restricted := false,
                    restriction_reason := none,
                    restricted_at := none } ∈ db3.specialists ∧
      db3.specialists.length = dbC1.specialists.length ∧
      db3.clients = dbC1.clients :=
  C9_createSubscription_success ⟨"cus_9", "sub_9", "trialing"⟩ 11 dbC1 1
    "professional" specC1 ⟨"professional", "Professional", 79, 50⟩
    (by decide) (by decide)

/-- The client-row fields an archive operation must leave unchanged. -/
def clientFramePreserved (a b : Client) : Prop :=
  b.id = a.id ∧ b.specialist_id = a.specialist_id ∧ b.name = a.name ∧
  b.email = a.email ∧ b.last_activity = a.last_activity ∧
  b.marked_for_cleanup = a.marked_for_cleanup

theorem forall₂_map_of_pointwise {α : Type _} {R : α → α → Prop}
    (l : List α) (g : α → α) (h : ∀ c ∈ l, R c (g c)) :
    List.Forall₂ R l (l.map g) := by
  induction l with
  | nil => exact List.Forall₂.nil
  | cons a t ih =>
    exact List.Forall₂.cons (h a (List.mem_cons_self a t))
      (ih (fun c hc => h c (List.mem_cons_of_mem a hc)))

/-- Concrete state for C8: one active client (id 5) of account 2, with no
archive reason recorded. -/
def dbC8 : DB :=
  { billing_tiers := [], specialists := [mkSpec 2 none false 1],
    clients := [mkClient 5 2 true none],
    billing_events := [], invoices := [], scheduled_tasks := [] }

/-- Claim C8 as written fails on the code: archiving also writes the
`archived_reason` column.  Archiving client 5 of `dbC8` (whose
`archived_reason` is NULL) leaves a row whose `archived_reason` is now
`manual_archive`, so a field outside
is_active/is_archived/archived_at changed. -/
theorem C8_archived_reason_changes_counterexample :
    dbC8.clients.map (fun c => c.archived_reason) = [none] ∧
    (svcArchiveClientRows 3 dbC8 5 2 "manual_archive").1.clients.map
        (fun c => c.archived_reason) = [some "manual_archive"] ∧
    (none : Option String) ≠ some "manual_archive" := by
  decide

/-- Claim C8 (amended): neither archive code path (the scheduled
`archiveClient` UPDATE by single id, nor the `/archive-clients` route UPDATE
by id list) removes a client row, and each row changes at most in
`is_active`, `is_archived`, `archived_at` and `archived_reason`: id, owner,
name, email, last_activity and marked_for_cleanup are all preserved
row-by-row (`Forall₂` also forces equal lengths, i.e. no deletion). -/
theorem C8_archive_frame (now : Int) (db : DB) (cid sid : Nat)
    (clientIds : List Nat) (reason : String) :
    List.Forall₂ clientFramePreserved db.clients
      (svcArchiveClientRows now db cid sid reason).1.clients ∧
    List.Forall₂ clientFramePreserved db.clients
      (archiveClientsByIds now db sid clientIds reason).1.clients := by
  constructor
  · have hcl : (svcArchiveClientRows now db cid sid reason).1.clients =
        db.clients.map (fun c =>
          if c.id == cid && c.specialist_id == sid then
            archiveClientUpdate now reason c else c) := by
      unfold svcArchiveClientRows recomputeClientCount updateSpecialistsWhere
      dsimp only
      split <;> rfl
    rw [hcl]
    exact forall₂_map_of_pointwise _ _ (fun c _ => by
      split <;> simp [archiveClientUpdate, clientFramePreserved])
  · have hcl : (archiveClientsByIds now db sid clientIds reason).1.clients =
        db.clients.map (fun c =>
          if clientIds.contains c.id && c.specialist_id == sid then
            archiveClientUpdate now reason c else c) := by
      unfold archiveClientsByIds recomputeClientCount updateSpecialistsWhere
      dsimp only
      split <;> rfl
    rw [hcl]
    exact forall₂_map_of_pointwise _ _ (fun c _ => by
      split <;> simp [archiveClientUpdate, clientFramePreserved])

/-- Concrete state for C3: account 1 on the starter tier (limit 10) holding
exactly ten active dependents, stored count 10, not yet restricted. -/
def dbC3 : DB :=
  { billing_tiers := [⟨"starter", "Starter", 29, 10, true⟩],
    specialists := [mkSpec 1 (some "starter") false 10],
    clients := (List.range 10).map (fun i => mkClient (i + 1) 1 true none),
    billing_events := [], invoices := [], scheduled_tasks := [] }

/-- The state after the rejected 11th create attempt (the middleware
persists the restriction flag as a side effect). -/
def dbC3b : DB := (postClientsPipeline 0 dbC3 1 (mkClient 11 1 true none)).1

/-- The state after archiving client 1 through `/api/billing/archive-clients`. -/
def dbC3c : DB := (postArchiveClientsRoute 0 dbC3b 1 [1] "manual_archive").1

/-- Claim C3 is half right and half wrong on the code (a code bug):
creating dependent 11 at the 10/10 starter limit is rejected 403 with
`upgrade_url`, and archiving one dependent brings the active count to 9 —
but the subsequent create request is rejected 403 again
(`Account restricted`), because no code path clears the persisted
`is_restricted` flag when the count drops below the limit, contradicting
both the spec scenario and the testing checklist in billing-readme.md
(`Archive a client - can add new one`). -/
theorem C3_archive_then_create_still_blocked :
    (postClientsPipeline 0 dbC3 1 (mkClient 11 1 true none)).2.2 =
      .rejected ⟨403, "Client limit exceeded", some "/billing/upgrade"⟩ ∧
    (postArchiveClientsRoute 0 dbC3b 1 [1] "manual_archive").2.2 =
      .allowed ∧
    activeClientCount dbC3c 1 = 9 ∧
    (postClientsPipeline 0 dbC3c 1 (mkClient 11 1 true none)).2.2 =
      .rejected ⟨403, "Account restricted", some "/billing/upgrade"⟩ := by
  decide

theorem countActive_map_eq (l : List Client) (g : Client → Client) (sid : Nat)
    (h : ∀ c ∈ l, ((g c).specialist_id == sid && (g c).is_active) =
      (c.specialist_id == sid && c.is_active)) :
    countActive (l.map g) sid = countActive l sid := by
  unfold countActive
  rw [List.filter_map, List.length_map]
  exact congrArg List.length (List.filter_congr h)

theorem countActive_append_single (l : List Client) (c : Client) (sid : Nat)
    (h : (c.specialist_id == sid && c.is_active) = false) :
    countActive (l ++ [c]) sid = countActive l sid := by
  unfold countActive
  rw [List.filter_append]
  simp [h]

theorem countActive_eq_countNonArchived (cs : List Client) (sid : Nat)
    (h : ∀ c ∈ cs, c.is_active = !c.is_archived) :
    countActive cs sid = countNonArchived cs sid :=
  congrArg List.length (List.filter_congr (fun c hc => by rw [h c hc]))

theorem countInvariant_recompute (db : DB) (sid : Nat)
    (h : ∀ s ∈ db.specialists, s.id ≠ sid →
      s.client_count = countActive db.clients s.id) :
    countInvariant (recomputeClientCount db sid) := by
  intro s' hs'
  unfold recomputeClientCount updateSpecialistsWhere at hs' ⊢
  rcases List.mem_map.mp hs' with ⟨s, hsmem, rfl⟩
  by_cases hid : (s.id == sid) = true
  · have : s.id = sid := by simpa using hid
    simp only [hid, if_true]
    simp [this]
  · simp only [hid, if_false]
    exact h s hsmem (by simpa using hid)

/-- Claim C2: every dependent state change — creation, archive,
reactivation — leaves the stored `client_count` of every account equal to
its live active-dependent count (the trigger recompute runs exactly when
`is_active` changed, and skipping it when `is_active` did not change is
also count-preserving), the active/archived coupling survives, and hence
the stored count also equals the count of non-archived dependents. -/
theorem C2_client_count_invariant (db : DB) (op : ClientOp)
    (hcount : countInvariant db) (hcouple : activeArchiveCoupled db) :
    countInvariant (applyClientOp db op) ∧
    activeArchiveCoupled (applyClientOp db op) ∧
    ∀ s ∈ (applyClientOp db op).specialists,
      s.client_count = countNonArchived (applyClientOp db op).clients s.id := by
  have main : countInvariant (applyClientOp db op) ∧
      activeArchiveCoupled (applyClientOp db op) := by
    cases op with
    | create c =>
      constructor
      · unfold applyClientOp insertClient
        apply countInvariant_recompute
        intro s hs hne
        rw [countActive_append_single _ _ _ (by simpa using Ne.symm hne)]
        exact hcount s hs
      · intro c' hc'
        unfold applyClientOp insertClient recomputeClientCount
          updateSpecialistsWhere at hc'
        rcases List.mem_append.mp hc' with hin | hin
        · exact hcouple c' hin
        · rcases List.mem_singleton.mp hin with rfl
          rfl
    | archive cid sid now reason =>
      have hclients : (applyClientOp db (.archive cid sid now reason)).clients =
          db.clients.map (fun c =>
            if c.id == cid && c.specialist_id == sid then
              archiveClientUpdate now reason c else c) := by
        unfold applyClientOp svcArchiveClientRows recomputeClientCount
          updateSpecialistsWhere
        dsimp only
        split <;> rfl
      constructor
      · unfold applyClientOp svcArchiveClientRows
        dsimp only
        by_cases htrig : ((db.clients.filter (fun c =>
            c.id == cid && c.specialist_id == sid)).any (fun c => c.is_active)) = true
        · rw [if_pos htrig]
          apply countInvariant_recompute
          intro s hs hne
          rw [countActive_map_eq]
          · exact hcount s hs
          · intro c _
            by_cases hhit : (c.id == cid && c.specialist_id == sid) = true
            · have hconj := (Bool.and_eq_true _ _).mp hhit
              have hcid : c.id = cid := by simpa using hconj.1
              have hcs : c.specialist_id = sid := by simpa using hconj.2
              simp [hcid, hcs, archiveClientUpdate, Ne.symm hne]
            · simp [hhit]
        · rw [if_neg htrig]
          intro s hs
          rw [countActive_map_eq]
          · exact hcount s hs
          · intro c hc
            by_cases hhit : (c.id == cid && c.specialist_id == sid) = true
            · have hact : c.is_active = false := by
                cases hca : c.is_active
                · rfl
                · exact absurd (List.any_eq_true.mpr
                    ⟨c, List.mem_filter.mpr ⟨hc, hhit⟩, hca⟩) htrig
              have hconj := (Bool.and_eq_true _ _).mp hhit
              have hcid : c.id = cid := by simpa using hconj.1
              have hcs : c.specialist_id = sid := by simpa using hconj.2
              simp [hcid, hcs, archiveClientUpdate, hact]
            · simp [hhit]
      · intro c' hc'
        rw [hclients] at hc'
        rcases List.mem_map.mp hc' with ⟨c, hcmem, rfl⟩
        by_cases hhit : (c.id == cid && c.specialist_id == sid) = true
        · simp [hhit, archiveClientUpdate]
        · simpa [hhit] using hcouple c hcmem
    | reactivate cid sid =>
      have hclients : (applyClientOp db (.reactivate cid sid)).clients =
          db.clients.map (fun c =>
            if c.id == cid && c.specialist_id == sid then
              { c with is_active := true, is_archived := false } else c) := by
        unfold applyClientOp reactivateClientRow recomputeClientCount
          updateSpecialistsWhere
        dsimp only
        split <;> rfl
      constructor
      · unfold applyClientOp reactivateClientRow
        dsimp only
        by_cases htrig : ((db.clients.filter (fun c =>
            c.id == cid && c.specialist_id == sid)).any (fun c => !c.is_active)) = true
        · rw [if_pos htrig]
          apply countInvariant_recompute
          intro s hs hne
          rw [countActive_map_eq]
          · exact hcount s hs
          · intro c _
            by_cases hhit : (c.id == cid && c.specialist_id == sid) = true
            · have hconj := (Bool.and_eq_true _ _).mp hhit
              have hcid : c.id = cid := by simpa using hconj.1
              have hcs : c.specialist_id = sid := by simpa using hconj.2
              simp [hcid, hcs, Ne.symm hne]
            · simp [hhit]
        · rw [if_neg htrig]
          intro s hs
          rw [countActive_map_eq]
          · exact hcount s hs
          · intro c hc
            by_cases hhit : (c.id == cid && c.specialist_id == sid) = true
            · have hact : c.is_active = true := by
                cases hca : c.is_active
                · exact absurd (List.any_eq_true.mpr
                    ⟨c, List.mem_filter.mpr ⟨hc, hhit⟩, by simp [hca]⟩) htrig
                · rfl
              have hconj := (Bool.and_eq_true _ _).mp hhit
              have hcid : c.id = cid := by simpa using hconj.1
              have hcs : c.specialist_id = sid := by simpa using hconj.2
              simp [hcid, hcs, hact]
            · simp [hhit]
      · intro c' hc'
        rw [hclients] at hc'
        rcases List.mem_map.mp hc' with ⟨c, hcmem, rfl⟩
        by_cases hhit : (c.id == cid && c.specialist_id == sid) = true
        · simp [hhit]
        · simpa [hhit] using hcouple c hcmem
  refine ⟨main.1, main.2, ?_⟩
  intro s hs
  rw [← countActive_eq_countNonArchived _ _ main.2]
  exact main.1 s hs

/-- Concrete state for the C2 witness: account 4 with one active client
(id 7) and a stored count of 1. -/
def dbC2 : DB :=
  { billing_tiers := [], specialists := [mkSpec 4 none false 1],
    clients := [mkClient 7 4 true none],
    billing_events := [], invoices := [], scheduled_tasks := [] }

/-- Witness for C2: archiving client 7 of account 4. -/
theorem C2_client_count_invariant_witness :
    countInvariant (applyClientOp dbC2 (ClientOp.archive 7 4 2 "r")) ∧
    activeArchiveCoupled (applyClientOp dbC2 (ClientOp.archive 7 4 2 "r")) ∧
    ∀ s ∈ (applyClientOp dbC2 (ClientOp.archive 7 4 2 "r")).specialists,
      s.client_count = countNonArchived
        (applyClientOp dbC2 (ClientOp.archive 7 4 2 "r")).clients s.id :=
  C2_client_count_invariant dbC2 (ClientOp.archive 7 4 2 "r")
    (by unfold countInvariant; decide) (by unfold activeArchiveCoupled; decide)

theorem optLe_trans (x y z : Option Int) (h1 : optLe x y = true)
    (h2 : optLe y z = true) : optLe x z = true := by
  cases x <;> cases y <;> cases z <;> (simp_all [optLe]; try omega)

theorem optLe_total (x y : Option Int) : (optLe x y || optLe y x) = true := by
  cases x <;> cases y <;> (simp [optLe]; try omega)

theorem activityLe_trans (a b c : Client) (h1 : activityLe a b = true)
    (h2 : activityLe b c = true) : activityLe a c = true :=
  optLe_trans _ _ _ h1 h2

theorem activityLe_total (a b : Client) :
    (activityLe a b || activityLe b a) = true :=
  optLe_total _ _

/-- The `archive_client` task rows `smartArchiveClients` inserts for a
selection, numbered from the next SERIAL id. -/
def archiveTasksFor (db : DB) (now : Int) (sid : Nat)
    (sel : List Client) : List STask :=
  sel.enum.map (fun ic => mkArchiveTask (nextTaskId db + ic.1) now sid ic.2)

/-- The restricted specialist of the C6 counterexample state. -/
def specC6x : Specialist :=
  { mkSpec 1 (some "basic") true 2 with
    restriction_reason := some "client_limit_exceeded" }

/-- C6 counterexample state: account 1, restricted, tier limit 1, two
active dependents both with recent activity (so neither is 90+ days
inactive). -/
def dbC6x : DB :=
  { billing_tiers := [⟨"basic", "Basic", 29, 1, true⟩],
    specialists := [specC6x],
    clients := [mkClient 1 1 true (some (91 * 86400000)),
                mkClient 2 1 true (some (91 * 86400000))],
    billing_events := [], invoices := [], scheduled_tasks := [] }

unseal List.merge List.mergeSort in
/-- Claim C6 as written fails on the code: `smartArchiveClients` only
considers clients inactive for 90+ days (or with NULL activity).  On a
restricted account with limit 1 and two recently active dependents
(overage 1), it selects nothing, notifies nobody and schedules nothing,
while the claim requires a notification and one scheduled archival. -/
theorem C6_recent_activity_counterexample :
    (findSpecialist dbC6x 1).map (fun s => s.is_restricted) = some true ∧
    tierLimit dbC6x specC6x = some 1 ∧
    activeClientCount dbC6x 1 = 2 ∧
    smartArchiveClients (91 * 86400000) dbC6x 1 = (dbC6x, []) := by
  decide

/-- Claim C6 (amended): for a restricted account over a finite limit,
`smartArchiveClients` selects — among the dependents inactive for 90+ days
or with no recorded activity — the least recently active first (NULL
activity first), at most the overage amount; when at least one such
candidate exists it notifies the account holder once (template
`pending-archive`) and appends one `archive_client` task per selected
dependent due seven days later, archiving nothing immediately (the clients
and specialists tables are unchanged). -/
theorem C6_smart_archive_schedules (now : Int) (db : DB) (sid : Nat)
    (s : Specialist) (l : Int)
    (hfind : db.specialists.find? (fun x => x.id == sid && x.is_restricted) =
      some s)
    (hl : tierLimit db s = some l)
    (hfin : l ≠ -1)
    (hover : l < (activeClientCount db sid : Int))
    (hne : eligibleForArchive now db sid ≠ []) :
    ∃ sel : List Client,
      sel = ((eligibleForArchive now db sid).mergeSort activityLe).take
        (((activeClientCount db sid : Int) - l).toNat) ∧
      smartArchiveClients now db sid =
        ({ db with scheduled_tasks :=
             db.scheduled_tasks ++ archiveTasksFor db now sid sel },
         [notifyPendingArchiveEmail s]) ∧
      sel.length = min (((activeClientCount db sid : Int) - l).toNat)
        (eligibleForArchive now db sid).length ∧
      0 < sel.length ∧
      List.Pairwise (fun a b => activityLe a b = true) sel ∧
      (∀ c ∈ sel, c ∈ db.clients ∧ c.specialist_id = sid ∧
        c.is_active = true ∧
        (c.last_activity = none ∨
          ∃ ts, c.last_activity = some ts ∧ ts < now - 90 * msPerDay)) ∧
      (∀ tsk ∈ archiveTasksFor db now sid sel,
        tsk.execute_at = now + 7 * msPerDay ∧ tsk.status = "pending" ∧
          tsk.task_type = "archive_client") := by
  have hcond : (jsNeNegOne (some l) &&
      jsGtCount (activeClientCount db sid) (some l)) = true := by
    simp [jsNeNegOne, jsGtCount, hfin, hover]
  have hovpos : 0 < ((activeClientCount db sid : Int) - l).toNat := by omega
  have hlen : (((eligibleForArchive now db sid).mergeSort activityLe).take
      (((activeClientCount db sid : Int) - l).toNat)).length =
      min (((activeClientCount db sid : Int) - l).toNat)
        (eligibleForArchive now db sid).length := by
    rw [List.length_take, List.length_mergeSort]
  have hpos : 0 < (((eligibleForArchive now db sid).mergeSort activityLe).take
      (((activeClientCount db sid : Int) - l).toNat)).length := by
    rw [hlen]
    exact lt_min hovpos (List.length_pos.mpr hne)
  have hnonempty : (((eligibleForArchive now db sid).mergeSort activityLe).take
      (((activeClientCount db sid : Int) - l).toNat)).isEmpty = false := by
    rcases hcase : ((eligibleForArchive now db sid).mergeSort activityLe).take
        (((activeClientCount db sid : Int) - l).toNat) with _ | ⟨a, t⟩
    · rw [hcase] at hpos
      simp at hpos
    · rfl
  refine ⟨_, rfl, ?_, hlen, hpos, ?_, ?_, ?_⟩
  · unfold smartArchiveClients archiveTasksFor
    rw [hfind]
    simp only [hl, Option.getD_some, hcond, if_true, hnonempty,
      Bool.false_eq_true, if_false]
  · exact List.Pairwise.sublist (List.take_sublist _ _)
      (List.sorted_mergeSort activityLe_trans activityLe_total
        (eligibleForArchive now db sid))
  · intro c hc
    have h1 : c ∈ (eligibleForArchive now db sid).mergeSort activityLe :=
      List.mem_of_mem_take hc
    have h2 : c ∈ eligibleForArchive now db sid :=
      (List.mergeSort_perm (eligibleForArchive now db sid) activityLe).mem_iff.mp h1
    unfold eligibleForArchive at h2
    rcases List.mem_filter.mp h2 with ⟨hmem, hp⟩
    rcases Bool.and_eq_true .. |>.mp hp with ⟨hp1, hp2⟩
    rcases Bool.and_eq_true .. |>.mp hp1 with ⟨hsid, hact⟩
    refine ⟨hmem, by simpa using hsid, hact, ?_⟩
    rcases hla : c.last_activity with _ | ts
    · exact Or.inl rfl
    · refine Or.inr ⟨ts, rfl, ?_⟩
      rw [hla] at hp2
      simpa using hp2
  · intro tsk htsk
    rcases List.mem_map.mp htsk with ⟨ic, _, rfl⟩
    exact ⟨rfl, rfl, rfl⟩

/-- The restricted specialist of the C6 witness state. -/
def specC6w : Specialist :=
  { mkSpec 1 (some "basic") true 2 with
    restriction_reason := some "client_limit_exceeded" }

/-- C6 witness state: account 1, restricted, tier limit 1, two active
dependents whose last activity was at time 0 (far over 90 days before
`now = 91` days). -/
def dbC6w : DB :=
  { billing_tiers := [⟨"basic", "Basic", 29, 1, true⟩],
    specialists := [specC6w],
    clients := [mkClient 1 1 true (some 0), mkClient 2 1 true (some 0)],
    billing_events := [], invoices := [], scheduled_tasks := [] }

/-- Witness for C6 at the concrete state `dbC6w`. -/
theorem C6_smart_archive_schedules_witness :
    ∃ sel : List Client,
      sel = ((eligibleForArchive (91 * 86400000) dbC6w 1).mergeSort
          activityLe).take
        (((activeClientCount dbC6w 1 : Int) - 1).toNat) ∧
      smartArchiveClients (91 * 86400000) dbC6w 1 =
        ({ dbC6w with scheduled_tasks := dbC6w.scheduled_tasks ++
             archiveTasksFor dbC6w (91 * 86400000) 1 sel },
         [notifyPendingArchiveEmail specC6w]) ∧
      sel.length = min (((activeClientCount dbC6w 1 : Int) - 1).toNat)
        (eligibleForArchive (91 * 86400000) dbC6w 1).length ∧
      0 < sel.length ∧
      List.Pairwise (fun a b => activityLe a b = true) sel ∧
      (∀ c ∈ sel, c ∈ dbC6w.clients ∧ c.specialist_id = 1 ∧
        c.is_active = true ∧
        (c.last_activity = none ∨
          ∃ ts, c.last_activity = some ts ∧
            ts < 91 * 86400000 - 90 * msPerDay)) ∧
      (∀ tsk ∈ archiveTasksFor dbC6w (91 * 86400000) 1 sel,
        tsk.execute_at = 91 * 86400000 + 7 * msPerDay ∧
          tsk.status = "pending" ∧ tsk.task_type = "archive_client") :=
  C6_smart_archive_schedules (91 * 86400000) dbC6w 1 specC6w 1
    (by decide) (by decide) (by decide) (by decide) (by decide)

/-- `SELECT * FROM scheduled_tasks WHERE id = $1` (first matching row). -/
def taskById (db : DB) (tid : Nat) : Option STask :=
  db.scheduled_tasks.find? (fun t => t.id == tid)

theorem svcCheckClientLimits_tasks (now : Int) (db : DB) (sid : Nat)
    (db1 : DB) (em : List Email) (r : LimitCheckResult)
    (h : svcCheckClientLimits now db sid = .ok (db1, em, r)) :
    db1.scheduled_tasks = db.scheduled_tasks := by
  unfold svcCheckClientLimits at h
  cases hf : findSpecialist db sid with
  | none => rw [hf] at h; simp at h
  | some s =>
    rw [hf] at h
    dsimp only at h
    split at h
    · simp only [Except.ok.injEq, Prod.mk.injEq] at h
      rw [← h.1]
      rfl
    · split at h
      · simp only [Except.ok.injEq, Prod.mk.injEq] at h
        rw [← h.1]
      · simp only [Except.ok.injEq, Prod.mk.injEq] at h
        rw [← h.1]

theorem svcArchiveClientRows_tasks (now : Int) (db : DB) (cid sid : Nat)
    (reason : String) :
    (svcArchiveClientRows now db cid sid reason).1.scheduled_tasks =
      db.scheduled_tasks := by
  unfold svcArchiveClientRows recomputeClientCount updateSpecialistsWhere
  dsimp only
  split <;> rfl

theorem taskArchiveClient_tasks (now : Int) (db : DB) (task : STask) :
    (taskArchiveClient now db task).1.scheduled_tasks =
      db.scheduled_tasks := by
  unfold taskArchiveClient
  cases hcid : task.client_id with
  | none => cases task.specialist_id <;> rfl
  | some cid =>
    cases hsid : task.specialist_id with
    | none => rfl
    | some sid =>
      dsimp only
      rcases harch : svcArchiveClientRows now db cid sid
          ((task.payload.bind (fun p => p.reason)).getD
            "auto_archived_billing_limit") with ⟨db2, rows⟩
      have ht2 : db2.scheduled_tasks = db.scheduled_tasks := by
        have := svcArchiveClientRows_tasks now db cid sid
          ((task.payload.bind (fun p => p.reason)).getD
            "auto_archived_billing_limit")
        rw [harch] at this
        exact this
      dsimp only
      cases hh : rows.head? with
      | none => exact ht2
      | some r =>
        dsimp only
        cases hc : svcCheckClientLimits now db2 sid with
        | error e => exact ht2
        | ok triple =>
          rcases triple with ⟨db3, em, r2⟩
          dsimp only
          rw [svcCheckClientLimits_tasks now db2 sid db3 em r2 hc, ht2]

theorem taskSendLimitWarning_tasks (db : DB) (task : STask) :
    (taskSendLimitWarning db task).1.scheduled_tasks =
      db.scheduled_tasks := by
  unfold taskSendLimitWarning
  split
  · split <;> rfl
  · rfl

theorem taskRetryPayment_tasks (env : TaskEnv) (db : DB) (task : STask) :
    (taskRetryPayment env db task).1.scheduled_tasks =
      db.scheduled_tasks := by
  unfold taskRetryPayment
  repeat' split
  all_goals rfl

theorem runAction_tasks (env : TaskEnv) (now : Int) (db : DB) (task : STask) :
    (runAction env now db task).1.scheduled_tasks = db.scheduled_tasks := by
  unfold runAction
  split
  · exact taskArchiveClient_tasks now db task
  · exact taskSendLimitWarning_tasks db task
  · exact taskRetryPayment_tasks env db task
  · rfl
  · rfl
  · rfl

theorem executeTask_taskById_shape (env : TaskEnv) (now : Int) (db : DB)
    (task : STask) (tid : Nat) :
    ∃ st out, (st = "completed" ∨ st = "failed") ∧
      taskById (executeTask env now db task).1 tid =
        (taskById db tid).map (fun t0 =>
          if t0.id == task.id then
            { t0 with status := st, executed_at := some now,
                      result := some out }
          else t0) := by
  unfold executeTask
  dsimp only
  rcases hr : runAction env now (setTaskProcessing db task.id) task
    with ⟨db2, emails, res⟩
  have ht2 : db2.scheduled_tasks =
      (setTaskProcessing db task.id).scheduled_tasks := by
    have := runAction_tasks env now (setTaskProcessing db task.id) task
    rw [hr] at this
    exact this
  have key : ∀ (st : String) (out : TaskOutcome),
      taskById (setTaskDone db2 task.id now st out) tid =
        (taskById db tid).map (fun t0 =>
          if t0.id == task.id then
            { t0 with status := st, executed_at := some now,
                      result := some out }
          else t0) := by
    intro st out
    unfold taskById setTaskDone
    dsimp only
    rw [ht2]
    unfold setTaskProcessing
    dsimp only
    rw [List.map_map]
    rw [find?_map_pred _ _ _ (fun t0 => by
      by_cases hid : (t0.id == task.id) = true <;>
        simp [Function.comp, hid])]
    cases hf : db.scheduled_tasks.find? (fun t => t.id == tid) with
    | none => rfl
    | some t0 =>
      dsimp only [Option.map_some']
      by_cases hid : (t0.id == task.id) = true <;>
        simp [Function.comp, hid]
  cases res with
  | ok r => exact ⟨"completed", .res r, Or.inl rfl, key _ _⟩
  | error m => exact ⟨"failed", .err m, Or.inr rfl, key _ _⟩

theorem executeTask_taskById_other (env : TaskEnv) (now : Int) (db : DB)
    (task : STask) (tid : Nat) (hne : tid ≠ task.id) :
    taskById (executeTask env now db task).1 tid = taskById db tid := by
  rcases executeTask_taskById_shape env now db task tid with ⟨st, out, _, heq⟩
  rw [heq]
  cases hf : taskById db tid with
  | none => rfl
  | some t0 =>
    have hf2 : db.scheduled_tasks.find? (fun t => t.id == tid) = some t0 := hf
    have h1 := List.find?_some hf2
    have h2 : t0.id = tid := by simpa using h1
    have h3 : (t0.id == task.id) = false := by
      simp [h2, hne]
    simp only [Option.map_some', h3, Bool.false_eq_true, if_false]

theorem executeTask_taskById_isSome (env : TaskEnv) (now : Int) (db : DB)
    (task : STask) (tid : Nat) :
    (taskById (executeTask env now db task).1 tid).isSome =
      (taskById db tid).isSome := by
  rcases executeTask_taskById_shape env now db task tid with ⟨st, out, _, heq⟩
  rw [heq]
  cases taskById db tid <;> rfl

theorem executeTask_taskById_self (env : TaskEnv) (now : Int) (db : DB)
    (task : STask) (hex : (taskById db task.id).isSome = true) :
    ∃ t1, taskById (executeTask env now db task).1 task.id = some t1 ∧
      (t1.status = "completed" ∨ t1.status = "failed") ∧
      t1.executed_at = some now ∧ t1.result.isSome = true := by
  rcases executeTask_taskById_shape env now db task task.id
    with ⟨st, out, hst, heq⟩
  rcases Option.isSome_iff_exists.mp hex with ⟨t0, ht0⟩
  rw [heq, ht0]
  have ht02 : db.scheduled_tasks.find? (fun t => t.id == task.id) = some t0 := ht0
  have h1 := List.find?_some ht02
  have h2 : (t0.id == task.id) = true := by simpa using h1
  simp only [Option.map_some', h2, if_true]
  exact ⟨_, rfl, hst, rfl, rfl⟩

theorem foldl_exec_preserves_other (env : TaskEnv) (now : Int)
    (batch : List STask) (acc : DB × List Email) (tid : Nat)
    (h : ∀ t ∈ batch, t.id ≠ tid) :
    taskById (batch.foldl
      (fun acc task =>
        let r := executeTask env now acc.1 task
        (r.1, acc.2 ++ r.2)) acc).1 tid = taskById acc.1 tid := by
  induction batch generalizing acc with
  | nil => rfl
  | cons task rest ih =>
    rw [List.foldl_cons]
    rw [ih _ (fun t ht => h t (List.mem_cons_of_mem task ht))]
    exact executeTask_taskById_other env now acc.1 task tid
      (fun he => h task (List.mem_cons_self task rest) he.symm)

theorem foldl_exec_settles (env : TaskEnv) (now : Int)
    (batch : List STask) (acc : DB × List Email)
    (hnodup : (batch.map (fun t => t.id)).Nodup)
    (hex : ∀ t ∈ batch, (taskById acc.1 t.id).isSome = true) :
    ∀ t ∈ batch, ∃ t1,
      taskById (batch.foldl
        (fun acc task =>
          let r := executeTask env now acc.1 task
          (r.1, acc.2 ++ r.2)) acc).1 t.id = some t1 ∧
      (t1.status = "completed" ∨ t1.status = "failed") ∧
      t1.executed_at = some now ∧ t1.result.isSome = true := by
  induction batch generalizing acc with
  | nil => intro t ht; cases ht
  | cons task rest ih =>
    intro t ht
    rw [List.foldl_cons]
    rw [List.map_cons] at hnodup
    obtain ⟨hid_notin, hnodup_rest⟩ := List.nodup_cons.mp hnodup
    rcases List.mem_cons.mp ht with rfl | hmem
    · rcases executeTask_taskById_self env now acc.1 t
        (hex t (List.mem_cons_self t rest)) with ⟨t1, ht1, hprops⟩
      refine ⟨t1, ?_, hprops⟩
      rw [foldl_exec_preserves_other env now rest _ t.id
        (fun t' ht' he => hid_notin (he ▸ List.mem_map_of_mem (fun t => t.id) ht'))]
      exact ht1
    · apply ih
      · exact hnodup_rest
      · intro t' ht'
        rw [executeTask_taskById_isSome]
        exact hex t' (List.mem_cons_of_mem task ht')
      · exact hmem

/-- Claim C7: whatever the external payment outcomes, every task in the
batch a sweep tick polls (due pending tasks) ends the tick recorded as
`completed` or `failed`, with `executed_at` set and a result payload
present — in particular a failing task (the sweep's per-task try/catch
records it as failed) does not prevent any other task of the batch from
being settled, and the sweep itself is a total function (it cannot
crash). -/
theorem C7_sweep_settles_every_due_task (env : TaskEnv) (now : Int) (db : DB)
    (hnodup : (db.scheduled_tasks.map (fun t => t.id)).Nodup) :
    ∀ t ∈ dueTasks now db, ∃ t1,
      taskById (runPendingTasks env now db).1 t.id = some t1 ∧
      (t1.status = "completed" ∨ t1.status = "failed") ∧
      t1.executed_at = some now ∧ t1.result.isSome = true := by
  intro t ht
  have hmem_all : ∀ u ∈ dueTasks now db, u ∈ db.scheduled_tasks := by
    intro u hu
    have h1 : u ∈ (db.scheduled_tasks.filter
        (fun t => t.status == "pending" && t.execute_at ≤ now)).mergeSort
        (fun a b => a.execute_at ≤ b.execute_at) := List.mem_of_mem_take hu
    have h2 := (List.mergeSort_perm _ _).mem_iff.mp h1
    exact (List.mem_filter.mp h2).1
  have hnodup_batch : ((dueTasks now db).map (fun t => t.id)).Nodup := by
    have hfilter : ((db.scheduled_tasks.filter
        (fun t => t.status == "pending" && t.execute_at ≤ now)).map
          (fun t => t.id)).Nodup :=
      List.Nodup.sublist
        (List.Sublist.map _ (List.filter_sublist _)) hnodup
    have hsorted : (((db.scheduled_tasks.filter
        (fun t => t.status == "pending" && t.execute_at ≤ now)).mergeSort
          (fun a b => a.execute_at ≤ b.execute_at)).map
            (fun t => t.id)).Nodup :=
      ((List.mergeSort_perm _ _).map (fun t : STask => t.id)).symm.nodup hfilter
    unfold dueTasks
    rw [List.map_take]
    exact List.Nodup.sublist (List.take_sublist _ _) hsorted
  have hex : ∀ u ∈ dueTasks now db, (taskById db u.id).isSome = true := by
    intro u hu
    apply List.find?_isSome.mpr
    exact ⟨u, hmem_all u hu, by simp⟩
  exact foldl_exec_settles env now (dueTasks now db) (db, [])
    hnodup_batch hex t ht

/-- A sweep task that will fail: the `downgrade_plan` handler is not
defined on the runner class. -/
def taskC7a : STask :=
  { id := 1, task_type := "downgrade_plan", specialist_id := none,
    client_id := none, execute_at := 0, executed_at := none,
    status := "pending", payload := none, result := none }

/-- A sweep task of unknown type: it completes with the initial
`Unknown task type` result. -/
def taskC7b : STask :=
  { id := 2, task_type := "bogus", specialist_id := none,
    client_id := none, execute_at := 0, executed_at := none,
    status := "pending", payload := none, result := none }

/-- Concrete state for the C7 witness: two due pending tasks, the first of
which will fail. -/
def dbC7 : DB :=
  { billing_tiers := [], specialists := [], clients := [],
    billing_events := [], invoices := [],
    scheduled_tasks := [taskC7a, taskC7b] }

/-- A payment environment that declines every retry. -/
def envC7 : TaskEnv := ⟨fun _ => .error "declined"⟩

unseal List.merge List.mergeSort in
/-- Witness for C7: in `dbC7`, task 1 fails (undefined handler) and task 2
is still settled in the same tick. -/
theorem C7_sweep_settles_every_due_task_witness :
    (∃ t1, taskById (runPendingTasks envC7 0 dbC7).1 taskC7a.id = some t1 ∧
      (t1.status = "completed" ∨ t1.status = "failed") ∧
      t1.executed_at = some 0 ∧ t1.result.isSome = true) ∧
    (∃ t1, taskById (runPendingTasks envC7 0 dbC7).1 taskC7b.id = some t1 ∧
      (t1.status = "completed" ∨ t1.status = "failed") ∧
      t1.executed_at = some 0 ∧ t1.result.isSome = true) :=
  ⟨C7_sweep_settles_every_due_task envC7 0 dbC7 (by decide) taskC7a (by decide),
   C7_sweep_settles_every_due_task envC7 0 dbC7 (by decide) taskC7b (by decide)⟩

end Clockwork
